import Mathlib

/-!
Shallow embedding of the STDF binary parser
(`src/stdf_platform/parser.py`, class `STDFParser`) and proofs of the
frozen claims about it.

Modelling conventions:
- A Python binary file object is a `ByteStream`: the full byte list plus a
  cursor.  `f.read(n)` is `fread`: it returns up to `n` bytes (fewer at end
  of file, never raising) and advances the cursor by the number of bytes
  actually returned, exactly like Python's `BinaryIO.read`.
- Bytes are `Nat` (each `< 256` in a real file).
- `struct.unpack` of a 2- or 4-byte integer is `endVal`: little endian is
  `b0 + 256*b1 + ...`, big endian reverses the byte list first.
- A 4-byte IEEE float (`R*4`) is represented by its bit pattern as a `Nat`
  (the unsigned integer read in the resolved byte order).  Equality of the
  decoded Python floats coincides with equality of bit patterns for the
  concrete values used in the claims.
- Python strings read by `_read_cn` are kept as their raw byte lists
  (`decode("ascii", errors="replace")` never raises, so the byte list
  determines the Python string; the empty string is `[]`).
- `EOFError` is the only exception any reader or decoder can raise (the
  `decode` call in `_read_cn` is wrapped in try/except in the source, and
  `chr` cannot fail on a byte), so fallible code lives in
  `Except Unit`, `.error ()` standing for `EOFError`.
- Python `chr(byte)` single-character fields are kept as one-element byte
  lists, the `""` default as `[]`.
- Python's insertion-ordered `dict` is an association list: `dictLookup`
  finds the first (unique) matching key, `dictInsert` overwrites in place
  or appends a fresh key at the end.
-/

namespace STDF

/-- Byte order selected by `self._endian` (`"<"` or `">"` in the source). -/
inductive Endian
  | le
  | be
deriving DecidableEq, Repr

/-- A binary input stream: the whole file plus the read cursor. -/
structure ByteStream where
  bytes : List Nat
  pos : Nat
deriving DecidableEq, Repr

/-- Python `f.read(n)`: return up to `n` bytes from the cursor (fewer at end
of file, never raising) and advance the cursor by the count returned. -/
def fread (s : ByteStream) (n : Nat) : List Nat × ByteStream :=
  let chunk := (s.bytes.drop s.pos).take n
  (chunk, ⟨s.bytes, s.pos + chunk.length⟩)

/-- Little-endian value of a byte list (`struct.unpack("<...")`). -/
def leVal : List Nat → Nat
  | [] => 0
  | b :: rest => b + 256 * leVal rest

/-- Value of a byte list in the given byte order. -/
def endVal : Endian → List Nat → Nat
  | .le, l => leVal l
  | .be, l => leVal l.reverse

/-- Two's-complement reinterpretation of a `w`-bit unsigned value
(`struct.unpack` of a signed field). -/
def toSigned (w : Nat) (v : Nat) : Int :=
  if v < 2 ^ (w - 1) then (v : Int) else (v : Int) - 2 ^ w

/-- Fallible reads: `.error ()` is Python's `EOFError`. -/
abbrev ParseM (α : Type) := Except Unit α

/-- Source `_read_u1`. -/
def read_u1 (s : ByteStream) : ParseM (Nat × ByteStream) :=
  match fread s 1 with
  | ([b], s') => .ok (b, s')
  | _ => .error ()

/-- Source `_read_u2`. -/
def read_u2 (e : Endian) (s : ByteStream) : ParseM (Nat × ByteStream) :=
  match fread s 2 with
  | ([a, b], s') => .ok (endVal e [a, b], s')
  | _ => .error ()

/-- Source `_read_u4`. -/
def read_u4 (e : Endian) (s : ByteStream) : ParseM (Nat × ByteStream) :=
  match fread s 4 with
  | ([a, b, c, d], s') => .ok (endVal e [a, b, c, d], s')
  | _ => .error ()

/-- Source `_read_i1`. -/
def read_i1 (s : ByteStream) : ParseM (Int × ByteStream) :=
  match fread s 1 with
  | ([b], s') => .ok (toSigned 8 b, s')
  | _ => .error ()

/-- Source `_read_i2`. -/
def read_i2 (e : Endian) (s : ByteStream) : ParseM (Int × ByteStream) :=
  match fread s 2 with
  | ([a, b], s') => .ok (toSigned 16 (endVal e [a, b]), s')
  | _ => .error ()

/-- Source `_read_r4`: a 4-byte float, kept as its bit pattern. -/
def read_r4 (e : Endian) (s : ByteStream) : ParseM (Nat × ByteStream) :=
  match fread s 4 with
  | ([a, b, c, d], s') => .ok (endVal e [a, b, c, d], s')
  | _ => .error ()

/-- Source `_read_cn`: one length byte, then that many bytes of text.  A
short text read does not raise (Python `f.read` just returns fewer bytes and
`decode(..., errors="replace")` cannot fail). -/
def read_cn (s : ByteStream) : ParseM (List Nat × ByteStream) := do
  let (length, s) ← read_u1 s
  if length = 0 then
    pure ([], s)
  else
    let (data, s) := fread s length
    pure (data, s)

/-- Source `_read_header`: reads 4 raw bytes, length field in the resolved
byte order, type and subtype as raw bytes. -/
def read_header (e : Endian) (s : ByteStream) :
    ParseM (Nat × Nat × Nat × ByteStream) :=
  match fread s 4 with
  | ([a, b, t, u], s') => .ok (endVal e [a, b], t, u, s')
  | _ => .error ()

/-- Conditional read idiom `chr(self._read_u1(f)) if consumed < rec_len
else ""` of the source, the character kept as a one-byte list. -/
def readC1 (cond : Bool) (s : ByteStream) : ParseM (List Nat × ByteStream) :=
  if cond then do
    let (b, s) ← read_u1 s
    pure ([b], s)
  else pure ([], s)

/-- Conditional read idiom `self._read_u1(f) if consumed < rec_len else d`. -/
def readOptU1 (cond : Bool) (d : Nat) (s : ByteStream) :
    ParseM (Nat × ByteStream) :=
  if cond then read_u1 s else pure (d, s)

/-- Conditional read idiom `self._read_u2(f) if consumed < rec_len else d`. -/
def readOptU2 (cond : Bool) (e : Endian) (d : Nat) (s : ByteStream) :
    ParseM (Nat × ByteStream) :=
  if cond then read_u2 e s else pure (d, s)

/-- Conditional read idiom `self._read_u4(f) if consumed < rec_len else d`. -/
def readOptU4 (cond : Bool) (e : Endian) (d : Nat) (s : ByteStream) :
    ParseM (Nat × ByteStream) :=
  if cond then read_u4 e s else pure (d, s)

/-- Conditional read idiom `self._read_i1(f) if consumed < rec_len else d`. -/
def readOptI1 (cond : Bool) (d : Int) (s : ByteStream) :
    ParseM (Int × ByteStream) :=
  if cond then read_i1 s else pure (d, s)

/-- Conditional read idiom `self._read_i2(f) if consumed < rec_len else d`. -/
def readOptI2 (cond : Bool) (e : Endian) (d : Int) (s : ByteStream) :
    ParseM (Int × ByteStream) :=
  if cond then read_i2 e s else pure (d, s)

/-- Conditional read idiom `self._read_r4(f) if consumed < rec_len else
None`, the float kept as `some` bit pattern. -/
def readOptR4 (cond : Bool) (e : Endian) (s : ByteStream) :
    ParseM (Option Nat × ByteStream) :=
  if cond then do
    let (r, s) ← read_r4 e s
    pure (some r, s)
  else pure (none, s)

/-- Conditional read idiom `self._read_r4(f) if consumed < rec_len else d`
for the required-with-default float fields of the MPR decoder. -/
def readOptR4D (cond : Bool) (e : Endian) (d : Nat) (s : ByteStream) :
    ParseM (Nat × ByteStream) :=
  if cond then read_r4 e s else pure (d, s)

/-- Conditional read idiom `self._read_cn(f) if consumed < rec_len else ""`. -/
def readOptCn (cond : Bool) (s : ByteStream) : ParseM (List Nat × ByteStream) :=
  if cond then read_cn s else pure ([], s)

/-- First-match lookup in an insertion-ordered association list
(Python `d[k]` / `k in d`; keys are unique by construction). -/
def dictLookup {α : Type} : List (Nat × α) → Nat → Option α
  | [], _ => none
  | (k, v) :: rest, key => if key = k then some v else dictLookup rest key

/-- Python `d[k] = v` on an insertion-ordered dict: overwrite in place, or
append a fresh key at the end. -/
def dictInsert {α : Type} : List (Nat × α) → Nat → α → List (Nat × α)
  | [], key, v => [(key, v)]
  | (k, w) :: rest, key, v =>
    if key = k then (k, v) :: rest else (k, w) :: dictInsert rest key v

/-- One wafer dict as built by `_parse_wir` and updated by `_parse_wrr`
(the WRR-only keys are `none` until the update). -/
structure Wafer where
  wafer_id : List Nat
  lot_id : List Nat
  head_num : Nat
  start_time : Nat
  finish_time : Option Nat := none
  part_count : Option Nat := none
  good_count : Option Nat := none
  rtst_count : Option Nat := none
  abrt_count : Option Nat := none
deriving DecidableEq, Repr

/-- One part dict as built by `_parse_prr`.  The Python
`part_id = f"{lot_id}_{wafer_id}_{counter}"` is kept as its three
components (`lot_id`, `wafer_id`, `seq`). -/
structure Part where
  lot_id : List Nat
  wafer_id : List Nat
  seq : Nat
  head_num : Nat
  site_num : Nat
  x_coord : Int
  y_coord : Int
  hard_bin : Nat
  soft_bin : Nat
  passed : Bool
  test_count : Nat
  test_time : Nat
deriving DecidableEq, Repr

/-- One test-definition dict as registered by `_parse_ptr`, `_parse_mpr`
or `_parse_ftr` (the FTR variant carries no limit or unit keys in Python;
here they are `none`/`[]`). -/
structure TestDef where
  test_num : Nat
  test_name : List Nat
  lo_limit : Option Nat := none
  hi_limit : Option Nat := none
  units : List Nat := []
  test_type : String
  rec_type : String
deriving DecidableEq, Repr

/-- One test-result dict as appended by `_parse_ptr`, `_parse_mpr` or
`_parse_ftr`; `part_seq` is the counter component of the Python
`part_id` f-string. -/
structure TestResult where
  lot_id : List Nat
  wafer_id : List Nat
  part_seq : Nat
  test_num : Nat
  head_num : Nat
  site_num : Nat
  result : Option Nat
  passed : Bool
  alarm_id : List Nat
deriving DecidableEq, Repr

/-- One hard/soft bin dict as upserted by `_parse_hbr` / `_parse_sbr`. -/
structure BinInfo where
  bin_num : Nat
  bin_name : List Nat
  bin_pf : List Nat
  bin_count : Nat
deriving DecidableEq, Repr

/-- The `STDFData` dataclass: the session model plus the internal
`_current_wafer` / `_current_part_index` state (leading underscores
dropped for Lean). -/
structure STDFData where
  lot_id : List Nat := []
  part_type : List Nat := []
  job_name : List Nat := []
  job_rev : List Nat := []
  start_time : Nat := 0
  finish_time : Nat := 0
  tester_type : List Nat := []
  operator : List Nat := []
  test_code : List Nat := []
  wafers : List Wafer := []
  parts : List Part := []
  tests : List (Nat × TestDef) := []
  test_results : List TestResult := []
  bins_hard : List (Nat × BinInfo) := []
  bins_soft : List (Nat × BinInfo) := []
  current_wafer : List Nat := []
  current_part_index : Nat := 0
deriving DecidableEq, Repr

/-- The mutable state of one `STDFParser` instance: `self.data`,
`self._part_counter`, `self._endian`. -/
structure STDFParser where
  data : STDFData
  part_counter : Nat
  endian : Endian
deriving DecidableEq, Repr

/-- Source `STDFParser.__init__`. -/
def STDFParser.init : STDFParser :=
  { data := {}, part_counter := 0, endian := .le }

/-- The `remaining = rec_len - consumed; if remaining > 0: f.read(remaining)`
epilogue shared by most decoders (Python's negative `remaining` and Lean's
truncated subtraction both skip nothing when the decoder over-consumed). -/
def skipRemaining (start_pos rec_len : Nat) (s : ByteStream) : ByteStream :=
  let remaining := rec_len - (s.pos - start_pos)
  if remaining > 0 then (fread s remaining).2 else s

/-- Source `_parse_far`: reads cpu type and version, then fixes the byte
order (`cpu_type == 1` selects big endian, anything else little endian). -/
def _parse_far (p : STDFParser) (s : ByteStream) (_rec_len : Nat) :
    ParseM (STDFParser × ByteStream) := do
  let (cpu_type, s) ← read_u1 s
  let (_stdf_ver, s) ← read_u1 s
  pure ({ p with endian := if cpu_type = 1 then .be else .le }, s)

/-- Source `_parse_mir`. -/
def _parse_mir (p : STDFParser) (s : ByteStream) (rec_len : Nat) :
    ParseM (STDFParser × ByteStream) := do
  let start_pos := s.pos
  let (_setup_t, s) ← read_u4 p.endian s
  let (start_t, s) ← read_u4 p.endian s
  let (_stat_num, s) ← read_u1 s
  let (_mode_cod, s) ← readC1 (s.pos - start_pos < rec_len) s
  let (_rtst_cod, s) ← readC1 (s.pos - start_pos < rec_len) s
  let (_prot_cod, s) ← readC1 (s.pos - start_pos < rec_len) s
  let (_burn_tim, s) ← readOptU2 (s.pos - start_pos < rec_len) p.endian 0 s
  let (_cmod_cod, s) ← readC1 (s.pos - start_pos < rec_len) s
  let (lot_id, s) ← readOptCn (s.pos - start_pos < rec_len) s
  let (part_typ, s) ← readOptCn (s.pos - start_pos < rec_len) s
  let (_node_nam, s) ← readOptCn (s.pos - start_pos < rec_len) s
  let (tstr_typ, s) ← readOptCn (s.pos - start_pos < rec_len) s
  let (job_nam, s) ← readOptCn (s.pos - start_pos < rec_len) s
  let (job_rev, s) ← readOptCn (s.pos - start_pos < rec_len) s
  let (_sblot_id, s) ← readOptCn (s.pos - start_pos < rec_len) s
  let (oper_nam, s) ← readOptCn (s.pos - start_pos < rec_len) s
  let (_exec_typ, s) ← readOptCn (s.pos - start_pos < rec_len) s
  let (_exec_ver, s) ← readOptCn (s.pos - start_pos < rec_len) s
  let (test_cod, s) ← readOptCn (s.pos - start_pos < rec_len) s
  let data := { p.data with
    lot_id := lot_id, part_type := part_typ, job_name := job_nam,
    job_rev := job_rev, start_time := start_t, tester_type := tstr_typ,
    operator := oper_nam, test_code := test_cod }
  let s := skipRemaining start_pos rec_len s
  pure ({ p with data := data }, s)

/-- Source `_parse_mrr`. -/
def _parse_mrr (p : STDFParser) (s : ByteStream) (rec_len : Nat) :
    ParseM (STDFParser × ByteStream) := do
  let start_pos := s.pos
  let (finish_t, s) ← read_u4 p.endian s
  let data := { p.data with finish_time := finish_t }
  let s := skipRemaining start_pos rec_len s
  pure ({ p with data := data }, s)

/-- Source `_parse_wir`: appends a wafer and makes it current. -/
def _parse_wir (p : STDFParser) (s : ByteStream) (rec_len : Nat) :
    ParseM (STDFParser × ByteStream) := do
  let start_pos := s.pos
  let (head_num, s) ← read_u1 s
  let (_site_grp, s) ← readOptU1 (s.pos - start_pos < rec_len) 0 s
  let (start_t, s) ← readOptU4 (s.pos - start_pos < rec_len) p.endian 0 s
  let (wafer_id, s) ← readOptCn (s.pos - start_pos < rec_len) s
  let wafer : Wafer :=
    { wafer_id := wafer_id, lot_id := p.data.lot_id, head_num := head_num,
      start_time := start_t }
  let data := { p.data with
    current_wafer := wafer_id, wafers := p.data.wafers ++ [wafer] }
  let s := skipRemaining start_pos rec_len s
  pure ({ p with data := data }, s)

/-- Python `self.data.wafers[-1].update(...)` guarded by
`if self.data.wafers:`. -/
def updateLastWafer (ws : List Wafer) (f : Wafer → Wafer) : List Wafer :=
  match ws with
  | [] => []
  | [w] => [f w]
  | w :: rest => w :: updateLastWafer rest f

/-- Source `_parse_wrr`: updates the most recently appended wafer. -/
def _parse_wrr (p : STDFParser) (s : ByteStream) (rec_len : Nat) :
    ParseM (STDFParser × ByteStream) := do
  let start_pos := s.pos
  let (_head_num, s) ← read_u1 s
  let (_site_grp, s) ← readOptU1 (s.pos - start_pos < rec_len) 0 s
  let (finish_t, s) ← readOptU4 (s.pos - start_pos < rec_len) p.endian 0 s
  let (part_cnt, s) ← readOptU4 (s.pos - start_pos < rec_len) p.endian 0 s
  let (rtst_cnt, s) ← readOptU4 (s.pos - start_pos < rec_len) p.endian 0 s
  let (abrt_cnt, s) ← readOptU4 (s.pos - start_pos < rec_len) p.endian 0 s
  let (good_cnt, s) ← readOptU4 (s.pos - start_pos < rec_len) p.endian 0 s
  let (_func_cnt, s) ← readOptU4 (s.pos - start_pos < rec_len) p.endian 0 s
  let data := { p.data with
    wafers := updateLastWafer p.data.wafers (fun w =>
      { w with finish_time := some finish_t, part_count := some part_cnt,
               good_count := some good_cnt, rtst_count := some rtst_cnt,
               abrt_count := some abrt_cnt }) }
  let s := skipRemaining start_pos rec_len s
  pure ({ p with data := data }, s)

/-- Source `_parse_pir`: bumps the monotonic part counter.  The source has
no trailing-skip epilogue here (the driving loop resynchronizes). -/
def _parse_pir (p : STDFParser) (s : ByteStream) (_rec_len : Nat) :
    ParseM (STDFParser × ByteStream) := do
  let (_head_num, s) ← read_u1 s
  let (_site_num, s) ← read_u1 s
  pure ({ p with
    part_counter := p.part_counter + 1,
    data := { p.data with current_part_index := p.part_counter + 1 } }, s)

/-- Source `_parse_prr`: appends a part;
`passed = (part_flg & 0x08) == 0`. -/
def _parse_prr (p : STDFParser) (s : ByteStream) (rec_len : Nat) :
    ParseM (STDFParser × ByteStream) := do
  let start_pos := s.pos
  let (head_num, s) ← read_u1 s
  let (site_num, s) ← read_u1 s
  let (part_flg, s) ← read_u1 s
  let (num_test, s) ← read_u2 p.endian s
  let (hard_bin, s) ← read_u2 p.endian s
  let (soft_bin, s) ← readOptU2 (s.pos - start_pos < rec_len) p.endian 0 s
  let (x_coord, s) ← readOptI2 (s.pos - start_pos < rec_len) p.endian (-32768) s
  let (y_coord, s) ← readOptI2 (s.pos - start_pos < rec_len) p.endian (-32768) s
  let (test_t, s) ← readOptU4 (s.pos - start_pos < rec_len) p.endian 0 s
  let passed := (part_flg &&& 8) == 0
  let part : Part :=
    { lot_id := p.data.lot_id, wafer_id := p.data.current_wafer,
      seq := p.part_counter, head_num := head_num, site_num := site_num,
      x_coord := x_coord, y_coord := y_coord, hard_bin := hard_bin,
      soft_bin := soft_bin, passed := passed, test_count := num_test,
      test_time := test_t }
  let data := { p.data with parts := p.data.parts ++ [part] }
  let s := skipRemaining start_pos rec_len s
  pure ({ p with data := data }, s)

/-- Source `_parse_ptr`: appends a test result and registers the test
definition first-wins; `passed = (test_flg & 0x80) == 0`. -/
def _parse_ptr (p : STDFParser) (s : ByteStream) (rec_len : Nat) :
    ParseM (STDFParser × ByteStream) := do
  let start_pos := s.pos
  let (test_num, s) ← read_u4 p.endian s
  let (head_num, s) ← read_u1 s
  let (site_num, s) ← read_u1 s
  let (test_flg, s) ← read_u1 s
  let (_parm_flg, s) ← read_u1 s
  let (result, s) ← readOptR4 (s.pos - start_pos < rec_len) p.endian s
  let (test_txt, s) ← readOptCn (s.pos - start_pos < rec_len) s
  let (alarm_id, s) ← readOptCn (s.pos - start_pos < rec_len) s
  let (_opt_flag, s) ← readOptU1 (s.pos - start_pos < rec_len) 255 s
  let (_res_scal, s) ← readOptI1 (s.pos - start_pos < rec_len) 0 s
  let (_llm_scal, s) ← readOptI1 (s.pos - start_pos < rec_len) 0 s
  let (_hlm_scal, s) ← readOptI1 (s.pos - start_pos < rec_len) 0 s
  let (lo_limit, s) ← readOptR4 (s.pos - start_pos < rec_len) p.endian s
  let (hi_limit, s) ← readOptR4 (s.pos - start_pos < rec_len) p.endian s
  let (units, s) ← readOptCn (s.pos - start_pos < rec_len) s
  let passed := (test_flg &&& 128) == 0
  let tests :=
    if (dictLookup p.data.tests test_num).isNone then
      dictInsert p.data.tests test_num
        { test_num := test_num, test_name := test_txt, lo_limit := lo_limit,
          hi_limit := hi_limit, units := units, test_type := "P",
          rec_type := "PTR" }
    else p.data.tests
  let res : TestResult :=
    { lot_id := p.data.lot_id, wafer_id := p.data.current_wafer,
      part_seq := p.part_counter, test_num := test_num, head_num := head_num,
      site_num := site_num, result := result, passed := passed,
      alarm_id := alarm_id }
  let data := { p.data with
    tests := tests, test_results := p.data.test_results ++ [res] }
  let s := skipRemaining start_pos rec_len s
  pure ({ p with data := data }, s)

/-- Source `_parse_ftr`: pass/fail only, no numeric result. -/
def _parse_ftr (p : STDFParser) (s : ByteStream) (rec_len : Nat) :
    ParseM (STDFParser × ByteStream) := do
  let start_pos := s.pos
  let (test_num, s) ← read_u4 p.endian s
  let (head_num, s) ← read_u1 s
  let (site_num, s) ← read_u1 s
  let (test_flg, s) ← read_u1 s
  let passed := (test_flg &&& 128) == 0
  let tests :=
    if (dictLookup p.data.tests test_num).isNone then
      dictInsert p.data.tests test_num
        { test_num := test_num, test_name := [], test_type := "F",
          rec_type := "FTR" }
    else p.data.tests
  let res : TestResult :=
    { lot_id := p.data.lot_id, wafer_id := p.data.current_wafer,
      part_seq := p.part_counter, test_num := test_num, head_num := head_num,
      site_num := site_num, result := none, passed := passed,
      alarm_id := [] }
  let data := { p.data with
    tests := tests, test_results := p.data.test_results ++ [res] }
  let s := skipRemaining start_pos rec_len s
  pure ({ p with data := data }, s)

/-- The RTN_STAT nibble loop of `_parse_mpr`: `num_bytes` iterations, each
appending the low nibble and, while fewer than `rtn_icnt` states were
collected, the high nibble. -/
def mprRtnStat (rtn_icnt rec_len start_pos : Nat) :
    Nat → List Nat → ByteStream → ParseM (List Nat × ByteStream)
  | 0, acc, s => pure (acc, s)
  | n + 1, acc, s =>
    if s.pos - start_pos ≥ rec_len then pure (acc, s)
    else do
      let (byte, s) ← read_u1 s
      let acc := acc ++ [byte &&& 15]
      let acc :=
        if acc.length < rtn_icnt then acc ++ [(byte >>> 4) &&& 15] else acc
      mprRtnStat rtn_icnt rec_len start_pos n acc s

/-- The RTN_RSLT loop of `_parse_mpr`: up to `n` 4-byte floats, stopping
early when the declared length is exhausted. -/
def mprResults (e : Endian) (rec_len start_pos : Nat) :
    Nat → List Nat → ByteStream → ParseM (List Nat × ByteStream)
  | 0, acc, s => pure (acc, s)
  | n + 1, acc, s =>
    if s.pos - start_pos ≥ rec_len then pure (acc, s)
    else do
      let (r, s) ← read_r4 e s
      mprResults e rec_len start_pos n (acc ++ [r]) s

/-- The RTN_INDX loop of `_parse_mpr`: up to `n` 2-byte indexes, stopping
early when the declared length is exhausted. -/
def mprRtnIndx (e : Endian) (rec_len start_pos : Nat) :
    Nat → List Nat → ByteStream → ParseM (List Nat × ByteStream)
  | 0, acc, s => pure (acc, s)
  | n + 1, acc, s =>
    if s.pos - start_pos ≥ rec_len then pure (acc, s)
    else do
      let (i, s) ← read_u2 e s
      mprRtnIndx e rec_len start_pos n (acc ++ [i]) s

/-- The guarded RTN_STAT field read of `_parse_mpr`:
`if rtn_icnt > 0 and f.tell() - start_pos < rec_len:` runs the nibble loop
over `(rtn_icnt + 1) // 2` bytes, otherwise the state list stays empty. -/
def mprRtnStatField (rtn_icnt rec_len start_pos : Nat) (s : ByteStream) :
    ParseM (List Nat × ByteStream) :=
  if rtn_icnt > 0 ∧ s.pos - start_pos < rec_len then
    mprRtnStat rtn_icnt rec_len start_pos ((rtn_icnt + 1) / 2) [] s
  else pure ([], s)

/-- Source `_parse_mpr`: decodes the full multi-result layout but stores a
single test result whose value is `results[0] if results else None`. -/
def _parse_mpr (p : STDFParser) (s : ByteStream) (rec_len : Nat) :
    ParseM (STDFParser × ByteStream) := do
  let start_pos := s.pos
  let (test_num, s) ← read_u4 p.endian s
  let (head_num, s) ← read_u1 s
  let (site_num, s) ← read_u1 s
  let (test_flg, s) ← read_u1 s
  let (_parm_flg, s) ← read_u1 s
  let (rtn_icnt, s) ← readOptU2 (s.pos - start_pos < rec_len) p.endian 0 s
  let (rslt_cnt, s) ← readOptU2 (s.pos - start_pos < rec_len) p.endian 0 s
  let (_rtn_stat, s) ← mprRtnStatField rtn_icnt rec_len start_pos s
  let (results, s) ← mprResults p.endian rec_len start_pos rslt_cnt [] s
  let (test_txt, s) ← readOptCn (s.pos - start_pos < rec_len) s
  let (alarm_id, s) ← readOptCn (s.pos - start_pos < rec_len) s
  let (_opt_flag, s) ← readOptU1 (s.pos - start_pos < rec_len) 255 s
  let (_res_scal, s) ← readOptI1 (s.pos - start_pos < rec_len) 0 s
  let (_llm_scal, s) ← readOptI1 (s.pos - start_pos < rec_len) 0 s
  let (_hlm_scal, s) ← readOptI1 (s.pos - start_pos < rec_len) 0 s
  let (lo_limit, s) ← readOptR4 (s.pos - start_pos < rec_len) p.endian s
  let (hi_limit, s) ← readOptR4 (s.pos - start_pos < rec_len) p.endian s
  let (_start_in, s) ← readOptR4D (s.pos - start_pos < rec_len) p.endian 0 s
  let (_incr_in, s) ← readOptR4D (s.pos - start_pos < rec_len) p.endian 0 s
  let (_rtn_indx, s) ← mprRtnIndx p.endian rec_len start_pos rtn_icnt [] s
  let (units, s) ← readOptCn (s.pos - start_pos < rec_len) s
  let passed := (test_flg &&& 128) == 0
  let tests :=
    if (dictLookup p.data.tests test_num).isNone then
      dictInsert p.data.tests test_num
        { test_num := test_num, test_name := test_txt, lo_limit := lo_limit,
          hi_limit := hi_limit, units := units, test_type := "M",
          rec_type := "MPR" }
    else p.data.tests
  let result_val := results.head?
  let res : TestResult :=
    { lot_id := p.data.lot_id, wafer_id := p.data.current_wafer,
      part_seq := p.part_counter, test_num := test_num, head_num := head_num,
      site_num := site_num, result := result_val, passed := passed,
      alarm_id := alarm_id }
  let data := { p.data with
    tests := tests, test_results := p.data.test_results ++ [res] }
  let s := skipRemaining start_pos rec_len s
  pure ({ p with data := data }, s)

/-- Source `_parse_hbr`: upserts a hard-bin entry. -/
def _parse_hbr (p : STDFParser) (s : ByteStream) (rec_len : Nat) :
    ParseM (STDFParser × ByteStream) := do
  let start_pos := s.pos
  let (_head_num, s) ← read_u1 s
  let (_site_num, s) ← read_u1 s
  let (hbin_num, s) ← read_u2 p.endian s
  let (hbin_cnt, s) ← read_u4 p.endian s
  let (hbin_pf, s) ← readC1 (s.pos - start_pos < rec_len) s
  let (hbin_nam, s) ← readOptCn (s.pos - start_pos < rec_len) s
  let data := { p.data with
    bins_hard := dictInsert p.data.bins_hard hbin_num
      { bin_num := hbin_num, bin_name := hbin_nam, bin_pf := hbin_pf,
        bin_count := hbin_cnt } }
  let s := skipRemaining start_pos rec_len s
  pure ({ p with data := data }, s)

/-- Source `_parse_sbr`: upserts a soft-bin entry. -/
def _parse_sbr (p : STDFParser) (s : ByteStream) (rec_len : Nat) :
    ParseM (STDFParser × ByteStream) := do
  let start_pos := s.pos
  let (_head_num, s) ← read_u1 s
  let (_site_num, s) ← read_u1 s
  let (sbin_num, s) ← read_u2 p.endian s
  let (sbin_cnt, s) ← read_u4 p.endian s
  let (sbin_pf, s) ← readC1 (s.pos - start_pos < rec_len) s
  let (sbin_nam, s) ← readOptCn (s.pos - start_pos < rec_len) s
  let data := { p.data with
    bins_soft := dictInsert p.data.bins_soft sbin_num
      { bin_num := sbin_num, bin_name := sbin_nam, bin_pf := sbin_pf,
        bin_count := sbin_cnt } }
  let s := skipRemaining start_pos rec_len s
  pure ({ p with data := data }, s)

/-- Record type constants of the source. -/
def REC_FAR : Nat × Nat := (0, 10)

/-- Record type constant MIR. -/
def REC_MIR : Nat × Nat := (1, 10)

/-- Record type constant MRR. -/
def REC_MRR : Nat × Nat := (1, 20)

/-- Record type constant WIR. -/
def REC_WIR : Nat × Nat := (2, 10)

/-- Record type constant WRR. -/
def REC_WRR : Nat × Nat := (2, 20)

/-- Record type constant PIR. -/
def REC_PIR : Nat × Nat := (5, 10)

/-- Record type constant PRR. -/
def REC_PRR : Nat × Nat := (5, 20)

/-- Record type constant PTR. -/
def REC_PTR : Nat × Nat := (15, 10)

/-- Record type constant MPR. -/
def REC_MPR : Nat × Nat := (15, 15)

/-- Record type constant FTR. -/
def REC_FTR : Nat × Nat := (15, 20)

/-- Record type constant HBR. -/
def REC_HBR : Nat × Nat := (1, 40)

/-- Record type constant SBR. -/
def REC_SBR : Nat × Nat := (1, 50)

/-- The dispatch chain of `STDFParser.parse`; an unrecognized
`(type, subtype)` skips `rec_len` bytes (`f.read(rec_len)`). -/
def dispatchRecord (p : STDFParser) (s : ByteStream)
    (rec_len rec_typ rec_sub : Nat) : ParseM (STDFParser × ByteStream) :=
  let rec_key := (rec_typ, rec_sub)
  if rec_key = REC_FAR then _parse_far p s rec_len
  else if rec_key = REC_MIR then _parse_mir p s rec_len
  else if rec_key = REC_MRR then _parse_mrr p s rec_len
  else if rec_key = REC_WIR then _parse_wir p s rec_len
  else if rec_key = REC_WRR then _parse_wrr p s rec_len
  else if rec_key = REC_PIR then _parse_pir p s rec_len
  else if rec_key = REC_PRR then _parse_prr p s rec_len
  else if rec_key = REC_PTR then _parse_ptr p s rec_len
  else if rec_key = REC_MPR then _parse_mpr p s rec_len
  else if rec_key = REC_FTR then _parse_ftr p s rec_len
  else if rec_key = REC_HBR then _parse_hbr p s rec_len
  else if rec_key = REC_SBR then _parse_sbr p s rec_len
  else pure (p, (fread s rec_len).2)

/-- The `if consumed < rec_len: f.read(rec_len - consumed)` step of the
driving loop (it only ever skips forward; an over-consuming decoder is not
pulled back). -/
def resync (start_pos rec_len : Nat) (s : ByteStream) : ByteStream :=
  let consumed := s.pos - start_pos
  if consumed < rec_len then (fread s (rec_len - consumed)).2 else s

/-- One iteration of the `while True` loop of `STDFParser.parse`: header,
dispatch, forward resynchronization.  An `EOFError` anywhere inside
propagates (the loop breaks on it). -/
def parseStep (p : STDFParser) (s : ByteStream) :
    ParseM (STDFParser × ByteStream) := do
  let (rec_len, rec_typ, rec_sub, s) ← read_header p.endian s
  let start_pos := s.pos
  let (p, s) ← dispatchRecord p s rec_len rec_typ rec_sub
  pure (p, resync start_pos rec_len s)

/-- The `while True` loop of `STDFParser.parse`, fuelled: a step that
raises `EOFError` breaks out with the parser state accumulated so far.
In the model only `EOFError` can be raised (see the header comment), so the
source's unreachable `except Exception: continue` arm has no counterpart.
Every successful step consumes at least the 4 header bytes, so fuel
`bytes.length + 1` never runs out on a real file. -/
def parse_loop : Nat → STDFParser → ByteStream → STDFParser
  | 0, p, _ => p
  | fuel + 1, p, s =>
    match parseStep p s with
    | .error _ => p
    | .ok (p', s') => parse_loop fuel p' s'

/-- Source `STDFParser.parse`: resets `self.data` and `self._part_counter`
(but not `self._endian`), runs the loop, and returns `self.data`.  The
final parser state is returned too, since the Python method also leaves it
behind on `self`. -/
def STDFParser.parse (p : STDFParser) (bytes : List Nat) :
    STDFParser × STDFData :=
  let p := { p with data := {}, part_counter := 0 }
  let p' := parse_loop (bytes.length + 1) p ⟨bytes, 0⟩
  (p', p'.data)

/-- Source `_parse_stdf_python`: a fresh `STDFParser` instance, then
`parser.parse(file)`. -/
def _parse_stdf_python (bytes : List Nat) : STDFData :=
  (STDFParser.init.parse bytes).2

/-- Total projection of a successful decoder run, used to name concrete
runs in witnesses. -/
def okOr (x : ParseM (STDFParser × ByteStream)) : STDFParser × ByteStream :=
  match x with
  | .ok r => r
  | .error _ => (STDFParser.init, ⟨[], 0⟩)

/-- Inversion of a successful monadic bind in `ParseM`. -/
theorem bind_ok {α β : Type} {ma : ParseM α} {f : α → ParseM β} {b : β}
    (h : ma >>= f = .ok b) : ∃ a, ma = .ok a ∧ f a = .ok b := by
  cases ma with
  | error e => exact absurd h (by simp [Bind.bind, Except.bind])
  | ok a => exact ⟨a, rfl, h⟩

/-- Inserting a key that is absent does not disturb lookups that already
succeed. -/
theorem dictLookup_dictInsert {α : Type} (l : List (Nat × α)) (k tn : Nat)
    (v d : α) (hk : dictLookup l k = none) (h : dictLookup l tn = some d) :
    dictLookup (dictInsert l k v) tn = some d := by
  induction l with
  | nil => simp [dictLookup] at h
  | cons hd t ih =>
    obtain ⟨k', w⟩ := hd
    simp only [dictLookup] at h hk
    by_cases h1 : k = k'
    · simp [h1] at hk
    · simp only [dictInsert, if_neg h1, dictLookup]
      by_cases h2 : tn = k'
      · simpa [h2] using h
      · simp only [if_neg h2] at h ⊢
        exact ih (by simpa [h1] using hk) h

/-- The first-wins registration step
`if test_num not in tests: tests[test_num] = d` never disturbs an existing
definition. -/
theorem dictLookup_register {α : Type} (l : List (Nat × α)) (k tn : Nat)
    (v d : α) (h : dictLookup l tn = some d) :
    dictLookup (if (dictLookup l k).isNone then dictInsert l k v else l) tn =
      some d := by
  by_cases hk : (dictLookup l k).isNone
  · rw [if_pos hk]
    exact dictLookup_dictInsert l k tn v d (Option.isNone_iff_eq_none.mp hk) h
  · rw [if_neg hk]
    exact h

/-- A successful `_read_u1` returns the byte under the cursor and advances
by one. -/
theorem read_u1_ok {s : ByteStream} {b : Nat} {s' : ByteStream}
    (h : read_u1 s = .ok (b, s')) :
    b = (s.bytes.drop s.pos).headD 0 ∧ s' = ⟨s.bytes, s.pos + 1⟩ := by
  unfold read_u1 fread at h
  rcases hd : s.bytes.drop s.pos with - | ⟨a, t⟩
  · rw [hd] at h
    simp at h
  · rw [hd] at h
    simp only [List.take_succ_cons, List.take_zero, List.length_cons,
      List.length_nil, Nat.zero_add, List.headD_cons] at h ⊢
    cases h
    exact ⟨rfl, rfl⟩

/-- A successful `_read_u4` advances the cursor by exactly four bytes. -/
theorem read_u4_ok {e : Endian} {s : ByteStream} {v : Nat} {s' : ByteStream}
    (h : read_u4 e s = .ok (v, s')) : s' = ⟨s.bytes, s.pos + 4⟩ := by
  unfold read_u4 fread at h
  split at h
  next a b c d s'' heq =>
    obtain ⟨h1, h2⟩ := Prod.mk.injEq .. ▸ heq
    cases h
    rw [← h2, h1]
    rfl
  next => exact absurd h (by simp)

/-- Fewer than four bytes under the cursor make `_read_header` raise
`EOFError`. -/
theorem read_header_err (e : Endian) (s : ByteStream)
    (h : s.bytes.length < s.pos + 4) : read_header e s = .error () := by
  have hlen : ((s.bytes.drop s.pos).take 4).length < 4 := by
    simp only [List.length_take, List.length_drop]
    omega
  unfold read_header fread
  split
  next a b c d s'' heq =>
    obtain ⟨h1, h2⟩ := Prod.mk.injEq .. ▸ heq
    rw [h1] at hlen
    simp at hlen
  next => rfl

/-- C1 failing input: a PTR record with declared length 100 whose text field
carries a malformed length byte (200), so the string read swallows the rest
of the file and the next field read raises `EOFError` mid-record; the
following, well-formed PTR record (test 99) is never decoded. -/
def c1_malformed_then_good : List Nat :=
  [100, 0, 15, 10,
   42, 0, 0, 0, 1, 1, 0, 0, 0, 0, 0, 0, 200,
   12, 0, 15, 10,
   99, 0, 0, 0, 1, 1, 0, 0, 0, 0, 128, 63]

/-- The trailing well-formed PTR record of `c1_malformed_then_good` on its
own. -/
def c1_good_alone : List Nat :=
  [12, 0, 15, 10,
   99, 0, 0, 0, 1, 1, 0, 0, 0, 0, 128, 63]

/-- Claim C1 (code bug): a decode exception inside one record is supposed to
make the loop seek to `start_offset + declared_length` and decode the next
well-formed record; in the code the `EOFError` raised inside the malformed
record breaks out of the loop with no reseek, so the parse of the two-record
file returns the untouched initial session (the well-formed record for test
99 is lost), while that record alone decodes fine. -/
theorem c1_decode_failure_aborts :
    _parse_stdf_python c1_malformed_then_good = ({} : STDFData) ∧
    (_parse_stdf_python c1_good_alone).test_results.map TestResult.test_num =
      [99] :=
  ⟨by decide, by decide⟩

/-- Claim C2 counterexample: the rule "read a field only if
`consumed < declared_length`, else substitute the default" does not govern
*every* optional field of every decoder: `_parse_mir` reads the
spec-optional stat-num byte unconditionally, as though it were required.
First conjunct: a lot-info record whose declared length (8) ends right
after the required setup-time and start-time fields, sitting at the end of
the file, raises `EOFError` instead of defaulting stat-num and decoding
successfully.  Second conjunct: the same record with one more byte
available has that byte consumed — the cursor lands at 9, although with
`consumed = 8` and `declared_length = 8` the claim forbids any further
read. -/
theorem c2_counterexample :
    _parse_mir STDFParser.init ⟨[1, 0, 0, 0, 2, 0, 0, 0], 0⟩ 8 =
      .error () ∧
    (_parse_mir STDFParser.init
        ⟨[1, 0, 0, 0, 2, 0, 0, 0, 99], 0⟩ 8).toOption.map
      (fun r => r.2.pos) = some 9 ∧ ¬((9 : Nat) ≤ 8) :=
  ⟨rfl, by decide, by decide⟩

/-- Claim C2 as amended: optional trailing fields are read only while
`consumed < declared_length`, otherwise the documented default is
substituted — except the lot-info decoder's stat-num byte, which is read
unconditionally as though required (see the counterexample).  First
conjunct: a parametric-test record whose declared length (12) ends
immediately after the result field decodes successfully, for every
payload, with text `""`, `lo_limit = None`, `hi_limit = None`, units `""`,
the result present, and the cursor on the byte after the payload.  Second
conjunct: the same rule on a part-results record whose declared length (7)
ends after the hard-bin field — soft bin 0, both coordinates -32768, test
time 0.  Third conjunct: the guard does govern every lot-info field after
stat-num — a lot-info record whose declared length (9) ends right after
stat-num decodes successfully, for every payload, with every string field
defaulted to `""`. -/
theorem c2_truncated_optional_defaults :
    (∀ (p : STDFParser) (b0 b1 b2 b3 b4 b5 b6 b7 b8 b9 b10 b11 : Nat)
        (rest : List Nat),
      _parse_ptr p ⟨[b0,b1,b2,b3,b4,b5,b6,b7,b8,b9,b10,b11] ++ rest, 0⟩ 12 =
        .ok ({ p with data := { p.data with
                tests :=
                  if (dictLookup p.data.tests
                        (endVal p.endian [b0,b1,b2,b3])).isNone then
                    dictInsert p.data.tests (endVal p.endian [b0,b1,b2,b3])
                      { test_num := endVal p.endian [b0,b1,b2,b3]
                        test_name := []
                        lo_limit := none
                        hi_limit := none
                        units := []
                        test_type := "P"
                        rec_type := "PTR" }
                  else p.data.tests
                test_results := p.data.test_results ++
                  [{ lot_id := p.data.lot_id
                     wafer_id := p.data.current_wafer
                     part_seq := p.part_counter
                     test_num := endVal p.endian [b0,b1,b2,b3]
                     head_num := b4
                     site_num := b5
                     result := some (endVal p.endian [b8,b9,b10,b11])
                     passed := (b6 &&& 128) == 0
                     alarm_id := [] }] } },
             ⟨[b0,b1,b2,b3,b4,b5,b6,b7,b8,b9,b10,b11] ++ rest, 12⟩)) ∧
    (∀ (p : STDFParser) (b0 b1 b2 b3 b4 b5 b6 : Nat) (rest : List Nat),
      _parse_prr p ⟨[b0,b1,b2,b3,b4,b5,b6] ++ rest, 0⟩ 7 =
        .ok ({ p with data := { p.data with parts := p.data.parts ++
                [{ lot_id := p.data.lot_id
                   wafer_id := p.data.current_wafer
                   seq := p.part_counter
                   head_num := b0
                   site_num := b1
                   x_coord := -32768
                   y_coord := -32768
                   hard_bin := endVal p.endian [b5, b6]
                   soft_bin := 0
                   passed := (b2 &&& 8) == 0
                   test_count := endVal p.endian [b3, b4]
                   test_time := 0 }] } },
             ⟨[b0,b1,b2,b3,b4,b5,b6] ++ rest, 7⟩)) ∧
    (∀ (p : STDFParser) (b0 b1 b2 b3 b4 b5 b6 b7 b8 : Nat)
        (rest : List Nat),
      _parse_mir p ⟨[b0,b1,b2,b3,b4,b5,b6,b7,b8] ++ rest, 0⟩ 9 =
        .ok ({ p with data := { p.data with
                lot_id := []
                part_type := []
                job_name := []
                job_rev := []
                start_time := endVal p.endian [b4,b5,b6,b7]
                tester_type := []
                operator := []
                test_code := [] } },
             ⟨[b0,b1,b2,b3,b4,b5,b6,b7,b8] ++ rest, 9⟩)) := by
  refine ⟨?_, ?_, ?_⟩
  · intro p b0 b1 b2 b3 b4 b5 b6 b7 b8 b9 b10 b11 rest
    simp [_parse_ptr, read_u1, read_u4, readOptR4, readOptCn, readOptU1,
      readOptI1, read_r4, fread, skipRemaining, bind, Except.bind, pure,
      Except.pure]
  · intro p b0 b1 b2 b3 b4 b5 b6 rest
    simp [_parse_prr, read_u1, read_u2, readOptU2, readOptI2, readOptU4,
      fread, skipRemaining, bind, Except.bind, pure, Except.pure]
  · intro p b0 b1 b2 b3 b4 b5 b6 b7 b8 rest
    simp [_parse_mir, read_u1, read_u4, readC1, readOptU2, readOptCn,
      fread, skipRemaining, bind, Except.bind, pure, Except.pure]

/-- C3 input: one complete PIR record, then end of file. -/
def c3_clean : List Nat := [2, 0, 5, 10, 1, 1]

/-- C3 input: the same PIR record followed by a valid PTR header
(declared length 12) whose payload is cut off after 3 bytes: a short read
after a valid header. -/
def c3_truncated : List Nat := c3_clean ++ [12, 0, 15, 10, 5, 0, 0]

/-- Claim C3 counterexample: a short read after a valid header is *not*
reported — the truncated file parses to output literally identical to the
clean file's, so truncation is indistinguishable from clean end-of-stream
(the parse result carries no error information at all). -/
theorem c3_counterexample :
    _parse_stdf_python c3_truncated = _parse_stdf_python c3_clean ∧
    c3_truncated ≠ c3_clean :=
  ⟨by decide, by decide⟩

/-- Claim C3 as amended: fewer than 4 bytes available where a header is
expected terminates the loop cleanly with the session accumulated so far
(first conjunct, for any parser state and any fuel); a short read occurring
after a valid header also just terminates the parse silently, yielding
output identical to the clean file's (second conjunct) — no truncation
error is surfaced. -/
theorem c3_end_of_stream :
    (∀ (fuel : Nat) (p : STDFParser) (s : ByteStream),
        s.bytes.length < s.pos + 4 → parse_loop fuel p s = p) ∧
    _parse_stdf_python c3_truncated = _parse_stdf_python c3_clean := by
  constructor
  · intro fuel p s h
    cases fuel with
    | zero => rfl
    | succ n =>
      have hh := read_header_err p.endian s h
      simp [parse_loop, parseStep, hh, bind, Except.bind]
  · decide

/-- Claim C3 witness: the loop ends cleanly on a 3-byte stream. -/
theorem c3_witness :
    parse_loop 1 STDFParser.init ⟨[0, 0, 0], 0⟩ = STDFParser.init :=
  c3_end_of_stream.1 1 STDFParser.init ⟨[0, 0, 0], 0⟩ (by decide)

/-- C4 counterexample input: a PTR record with declared length 13 whose
last payload byte is a string length byte (5), making `_read_cn` consume
5 bytes beyond the declared record end. -/
def c4_overrun_file : List Nat :=
  [13, 0, 15, 10,
   7, 0, 0, 0, 1, 1, 0, 0, 0, 0, 0, 0, 5,
   65, 65, 65, 65, 65]

/-- Claim C4 counterexample: after processing the first record of
`c4_overrun_file` the cursor sits at 22, not at
`start_offset + declared_length = 4 + 13 = 17` — the loop's catch-up read
only ever skips forward, it never pulls an over-consuming decoder back. -/
theorem c4_counterexample :
    (parseStep STDFParser.init ⟨c4_overrun_file, 0⟩).toOption.map
        (fun r => r.2.pos) = some 22 ∧ (22 : Nat) ≠ 4 + 13 :=
  ⟨by decide, by decide⟩

/-- The (type, subtype) pairs the dispatch chain of `STDFParser.parse`
recognizes. -/
def knownRecKeys : List (Nat × Nat) :=
  [REC_FAR, REC_MIR, REC_MRR, REC_WIR, REC_WRR, REC_PIR, REC_PRR, REC_PTR,
   REC_MPR, REC_FTR, REC_HBR, REC_SBR]

/-- C4 input: an unrecognized (77,77) record of declared length 3 followed
by a valid PTR record for test 55. -/
def c4_unknown_then_ptr : List Nat :=
  [3, 0, 77, 77, 9, 9, 9] ++
  [12, 0, 15, 10, 55, 0, 0, 0, 1, 1, 0, 0, 0, 0, 128, 63]

/-- Claim C4 as amended: the resynchronization step places the cursor at
`start_offset + declared_length` whenever the decoder consumed at most the
declared length and the file extends that far (first conjunct); an
unrecognized record always consumes via a plain `f.read(rec_len)` skip
(second conjunct), so an unknown record followed by a known one leaves the
stream correctly positioned and the known record decodes (third conjunct).
When a decoder over-consumes, the cursor is *not* pulled back
(see the counterexample). -/
theorem c4_resync_position :
    (∀ (start_pos rec_len : Nat) (s : ByteStream),
        start_pos ≤ s.pos → s.pos - start_pos ≤ rec_len →
        start_pos + rec_len ≤ s.bytes.length →
        (resync start_pos rec_len s).pos = start_pos + rec_len) ∧
    (∀ (p : STDFParser) (s : ByteStream) (rec_len rec_typ rec_sub : Nat),
        (rec_typ, rec_sub) ∉ knownRecKeys →
        dispatchRecord p s rec_len rec_typ rec_sub =
          pure (p, (fread s rec_len).2)) ∧
    (_parse_stdf_python c4_unknown_then_ptr).test_results.map
      TestResult.test_num = [55] := by
  refine ⟨?_, ?_, by decide⟩
  · intro start_pos rec_len s h1 h2 h3
    unfold resync fread
    by_cases hc : s.pos - start_pos < rec_len
    · simp only [hc, if_pos, List.length_take, List.length_drop]
      omega
    · simp only [hc, if_neg, ite_false]
      omega
  · intro p s rec_len rec_typ rec_sub h
    simp only [knownRecKeys, List.mem_cons, List.not_mem_nil, or_false,
      not_or] at h
    obtain ⟨h1, h2, h3, h4, h5, h6, h7, h8, h9, h10, h11, h12⟩ := h
    simp [dispatchRecord, h1, h2, h3, h4, h5, h6, h7, h8, h9, h10, h11, h12]

/-- Claim C4 witness: resynchronization at the unknown record of
`c4_unknown_then_ptr` (payload start 4, declared length 3, decoder left the
cursor at 7), and the unknown-record skip itself. -/
theorem c4_witness :
    (resync 4 3 ⟨c4_unknown_then_ptr, 7⟩).pos = 4 + 3 ∧
    dispatchRecord STDFParser.init ⟨c4_unknown_then_ptr, 4⟩ 3 77 77 =
      pure (STDFParser.init, (fread ⟨c4_unknown_then_ptr, 4⟩ 3).2) :=
  ⟨c4_resync_position.1 4 3 ⟨c4_unknown_then_ptr, 7⟩ (by decide) (by decide)
      (by decide),
   c4_resync_position.2.1 STDFParser.init ⟨c4_unknown_then_ptr, 4⟩ 3 77 77
      (by decide)⟩

/-- C5 input: a little-endian file — FAR (cpu 2, little endian) then a PTR
for test 5 with result bits 0x3F800000 (1.0f). -/
def c5_le_file : List Nat :=
  [2, 0, 0, 10, 2, 2] ++
  [12, 0, 15, 10, 5, 0, 0, 0, 1, 1, 0, 0, 0, 0, 128, 63]

/-- C5 input: the same logical records with every multi-byte field after
the FAR payload encoded big-endian (cpu 1), the FAR's own header still
little-endian. -/
def c5_be_after_far : List Nat :=
  [2, 0, 0, 10, 1, 2] ++
  [0, 12, 15, 10, 0, 0, 0, 5, 1, 1, 0, 0, 63, 128, 0, 0]

/-- C5 counterexample input: the same logical records encoded *fully*
big-endian, including the FAR record's own header length field. -/
def c5_be_full : List Nat :=
  [0, 2, 0, 10, 1, 2] ++
  [0, 12, 15, 10, 0, 0, 0, 5, 1, 1, 0, 0, 63, 128, 0, 0]

/-- Claim C5 counterexample: a file encoded fully big-endian (with the
correct file-attrs signal cpu=1) does *not* decode to the same values as
its little-endian counterpart: the FAR header's length field is read with
the little-endian default, yielding declared length 512, so the catch-up
skip swallows the rest of the file and no test result is produced. -/
theorem c5_counterexample :
    _parse_stdf_python c5_be_full ≠ _parse_stdf_python c5_le_file ∧
    (_parse_stdf_python c5_le_file).test_results.map TestResult.test_num =
      [5] ∧
    (_parse_stdf_python c5_be_full).test_results = [] :=
  ⟨by decide, by decide, by decide⟩

/-- Claim C5 as amended: a fresh parser defaults to little endian (first
conjunct); decoding the file-attributes record sets the byte order from the
cpu-type byte — 1 selects big endian, anything else little endian — for
every subsequent read (second conjunct, for every payload); and a file
whose records after the file-attributes record are fully big-endian —
including the 2-byte length of later record headers — decodes to exactly
the values of its little-endian counterpart (third conjunct).  Only the
FAR record's own header escapes the rule (see the counterexample). -/
theorem c5_endianness :
    STDFParser.init.endian = .le ∧
    (∀ (p : STDFParser) (b0 b1 : Nat) (rest : List Nat) (rl : Nat),
        _parse_far p ⟨b0 :: b1 :: rest, 0⟩ rl =
          .ok ({ p with endian := if b0 = 1 then .be else .le },
               ⟨b0 :: b1 :: rest, 2⟩)) ∧
    _parse_stdf_python c5_be_after_far = _parse_stdf_python c5_le_file :=
  ⟨rfl, fun _ _ _ _ _ => rfl, by decide⟩

/-- Everything the claims need about a successful `_parse_ptr` run:
exactly one test result is appended, its pass flag is bit 7 of the
test-flags byte (the seventh payload byte), existing test definitions are
preserved, and the part counter is untouched. -/
theorem ptr_ok_spec (p p' : STDFParser) (s s' : ByteStream) (rl : Nat)
    (h : _parse_ptr p s rl = .ok (p', s')) :
    ∃ res : TestResult,
      p'.data.test_results = p.data.test_results ++ [res] ∧
      res.passed = (((s.bytes.drop (s.pos + 6)).headD 0) &&& 128 == 0) ∧
      (∀ (tn : Nat) (d : TestDef), dictLookup p.data.tests tn = some d →
        dictLookup p'.data.tests tn = some d) ∧
      p'.part_counter = p.part_counter := by
  unfold _parse_ptr at h
  obtain ⟨⟨test_num, s1⟩, h1, h⟩ := bind_ok h
  obtain ⟨⟨hn, s2⟩, h2, h⟩ := bind_ok h
  obtain ⟨⟨sn, s3⟩, h3, h⟩ := bind_ok h
  obtain ⟨⟨tf, s4⟩, h4, h⟩ := bind_ok h
  obtain ⟨⟨pf, s5⟩, -, h⟩ := bind_ok h
  obtain ⟨⟨res, s6⟩, -, h⟩ := bind_ok h
  obtain ⟨⟨txt, s7⟩, -, h⟩ := bind_ok h
  obtain ⟨⟨alm, s8⟩, -, h⟩ := bind_ok h
  obtain ⟨⟨opt, s9⟩, -, h⟩ := bind_ok h
  obtain ⟨⟨rs, s10⟩, -, h⟩ := bind_ok h
  obtain ⟨⟨ls, s11⟩, -, h⟩ := bind_ok h
  obtain ⟨⟨hsc, s12⟩, -, h⟩ := bind_ok h
  obtain ⟨⟨lo, s13⟩, -, h⟩ := bind_ok h
  obtain ⟨⟨hi, s14⟩, -, h⟩ := bind_ok h
  obtain ⟨⟨un, s15⟩, -, h⟩ := bind_ok h
  simp only [pure, Except.pure, Except.ok.injEq, Prod.mk.injEq] at h
  obtain ⟨hp, -⟩ := h
  subst hp
  have hs1 := read_u4_ok h1
  subst hs1
  obtain ⟨-, hs2⟩ := read_u1_ok h2
  subst hs2
  obtain ⟨-, hs3⟩ := read_u1_ok h3
  subst hs3
  obtain ⟨htf, -⟩ := read_u1_ok h4
  refine ⟨_, rfl, ?_,
    fun tn d hd => dictLookup_register p.data.tests test_num tn _ d hd, rfl⟩
  simp only [htf]

/-- Everything the claims need about a successful `_parse_prr` run:
exactly one part is appended and its pass flag is bit 3 of the part-flags
byte (the third payload byte). -/
theorem prr_ok_spec (p p' : STDFParser) (s s' : ByteStream) (rl : Nat)
    (h : _parse_prr p s rl = .ok (p', s')) :
    ∃ part : Part,
      p'.data.parts = p.data.parts ++ [part] ∧
      part.passed = (((s.bytes.drop (s.pos + 2)).headD 0) &&& 8 == 0) := by
  unfold _parse_prr at h
  obtain ⟨⟨hn, s1⟩, h1, h⟩ := bind_ok h
  obtain ⟨⟨sn, s2⟩, h2, h⟩ := bind_ok h
  obtain ⟨⟨pfl, s3⟩, h3, h⟩ := bind_ok h
  obtain ⟨⟨nt, s4⟩, -, h⟩ := bind_ok h
  obtain ⟨⟨hb, s5⟩, -, h⟩ := bind_ok h
  obtain ⟨⟨sb, s6⟩, -, h⟩ := bind_ok h
  obtain ⟨⟨xc, s7⟩, -, h⟩ := bind_ok h
  obtain ⟨⟨yc, s8⟩, -, h⟩ := bind_ok h
  obtain ⟨⟨tt, s9⟩, -, h⟩ := bind_ok h
  simp only [pure, Except.pure, Except.ok.injEq, Prod.mk.injEq] at h
  obtain ⟨hp, -⟩ := h
  subst hp
  obtain ⟨-, hs1⟩ := read_u1_ok h1
  subst hs1
  obtain ⟨-, hs2⟩ := read_u1_ok h2
  subst hs2
  obtain ⟨hpf, -⟩ := read_u1_ok h3
  refine ⟨_, rfl, ?_⟩
  simp only [hpf]

/-- Everything the claims need about a successful `_parse_ftr` run:
exactly one test result is appended, its pass flag is bit 7 of the
test-flags byte (the seventh payload byte), existing test definitions are
preserved. -/
theorem ftr_ok_spec (p p' : STDFParser) (s s' : ByteStream) (rl : Nat)
    (h : _parse_ftr p s rl = .ok (p', s')) :
    ∃ res : TestResult,
      p'.data.test_results = p.data.test_results ++ [res] ∧
      res.passed = (((s.bytes.drop (s.pos + 6)).headD 0) &&& 128 == 0) ∧
      (∀ (tn : Nat) (d : TestDef), dictLookup p.data.tests tn = some d →
        dictLookup p'.data.tests tn = some d) := by
  unfold _parse_ftr at h
  obtain ⟨⟨test_num, s1⟩, h1, h⟩ := bind_ok h
  obtain ⟨⟨hn, s2⟩, h2, h⟩ := bind_ok h
  obtain ⟨⟨sn, s3⟩, h3, h⟩ := bind_ok h
  obtain ⟨⟨tf, s4⟩, h4, h⟩ := bind_ok h
  simp only [pure, Except.pure, Except.ok.injEq, Prod.mk.injEq] at h
  obtain ⟨hp, -⟩ := h
  subst hp
  have hs1 := read_u4_ok h1
  subst hs1
  obtain ⟨-, hs2⟩ := read_u1_ok h2
  subst hs2
  obtain ⟨-, hs3⟩ := read_u1_ok h3
  subst hs3
  obtain ⟨htf, -⟩ := read_u1_ok h4
  refine ⟨_, rfl, ?_,
    fun tn d hd => dictLookup_register p.data.tests test_num tn _ d hd⟩
  simp only [htf]

/-- Everything the claims need about a successful `_parse_mpr` run:
exactly one test result is appended, its pass flag is bit 7 of the
test-flags byte (the seventh payload byte), existing test definitions are
preserved. -/
theorem mpr_ok_spec (p p' : STDFParser) (s s' : ByteStream) (rl : Nat)
    (h : _parse_mpr p s rl = .ok (p', s')) :
    ∃ res : TestResult,
      p'.data.test_results = p.data.test_results ++ [res] ∧
      res.passed = (((s.bytes.drop (s.pos + 6)).headD 0) &&& 128 == 0) ∧
      (∀ (tn : Nat) (d : TestDef), dictLookup p.data.tests tn = some d →
        dictLookup p'.data.tests tn = some d) := by
  unfold _parse_mpr at h
  obtain ⟨⟨test_num, s1⟩, h1, h⟩ := bind_ok h
  obtain ⟨⟨hn, s2⟩, h2, h⟩ := bind_ok h
  obtain ⟨⟨sn, s3⟩, h3, h⟩ := bind_ok h
  obtain ⟨⟨tf, s4⟩, h4, h⟩ := bind_ok h
  obtain ⟨⟨pf, s5⟩, -, h⟩ := bind_ok h
  obtain ⟨⟨ric, s6⟩, -, h⟩ := bind_ok h
  obtain ⟨⟨rsc, s7⟩, -, h⟩ := bind_ok h
  obtain ⟨⟨rst, s8⟩, -, h⟩ := bind_ok h
  obtain ⟨⟨results, s9⟩, -, h⟩ := bind_ok h
  obtain ⟨⟨txt, s10⟩, -, h⟩ := bind_ok h
  obtain ⟨⟨alm, s11⟩, -, h⟩ := bind_ok h
  obtain ⟨⟨opt, s12⟩, -, h⟩ := bind_ok h
  obtain ⟨⟨rs, s13⟩, -, h⟩ := bind_ok h
  obtain ⟨⟨ls, s14⟩, -, h⟩ := bind_ok h
  obtain ⟨⟨hsv, s15⟩, -, h⟩ := bind_ok h
  obtain ⟨⟨lo, s16⟩, -, h⟩ := bind_ok h
  obtain ⟨⟨hi, s17⟩, -, h⟩ := bind_ok h
  obtain ⟨⟨sti, s18⟩, -, h⟩ := bind_ok h
  obtain ⟨⟨ici, s19⟩, -, h⟩ := bind_ok h
  obtain ⟨⟨rix, s20⟩, -, h⟩ := bind_ok h
  obtain ⟨⟨un, s21⟩, -, h⟩ := bind_ok h
  simp only [pure, Except.pure, Except.ok.injEq, Prod.mk.injEq] at h
  obtain ⟨hp, -⟩ := h
  subst hp
  have hs1 := read_u4_ok h1
  subst hs1
  obtain ⟨-, hs2⟩ := read_u1_ok h2
  subst hs2
  obtain ⟨-, hs3⟩ := read_u1_ok h3
  subst hs3
  obtain ⟨htf, -⟩ := read_u1_ok h4
  refine ⟨_, rfl, ?_,
    fun tn d hd => dictLookup_register p.data.tests test_num tn _ d hd⟩
  simp only [htf]

/-- C6 input: two PTR records for test 7 (declared length 14, so the text
field is read), the first with text "A" (65), the second with text "B"
(66); both carry result bits 0x3F800000. -/
def c6_two_ptrs : List Nat :=
  [14, 0, 15, 10, 7, 0, 0, 0, 1, 1, 0, 0, 0, 0, 128, 63, 1, 65] ++
  [14, 0, 15, 10, 7, 0, 0, 0, 1, 1, 0, 0, 0, 0, 128, 63, 1, 66]

/-- Claim C6: first occurrence wins.  A successful parametric,
multi-result, or functional test decoder leaves every existing test
definition untouched (first three conjuncts), and parsing two PTR records
for test 7 with different texts yields the first text only (last
conjunct). -/
theorem c6_first_definition_wins :
    (∀ (p p' : STDFParser) (s s' : ByteStream) (rl tn : Nat) (d : TestDef),
        _parse_ptr p s rl = .ok (p', s') →
        dictLookup p.data.tests tn = some d →
        dictLookup p'.data.tests tn = some d) ∧
    (∀ (p p' : STDFParser) (s s' : ByteStream) (rl tn : Nat) (d : TestDef),
        _parse_mpr p s rl = .ok (p', s') →
        dictLookup p.data.tests tn = some d →
        dictLookup p'.data.tests tn = some d) ∧
    (∀ (p p' : STDFParser) (s s' : ByteStream) (rl tn : Nat) (d : TestDef),
        _parse_ftr p s rl = .ok (p', s') →
        dictLookup p.data.tests tn = some d →
        dictLookup p'.data.tests tn = some d) ∧
    dictLookup (_parse_stdf_python c6_two_ptrs).tests 7 =
      some { test_num := 7, test_name := [65], lo_limit := none,
             hi_limit := none, units := [], test_type := "P",
             rec_type := "PTR" } :=
  ⟨fun p p' s s' rl tn d h hd =>
      (ptr_ok_spec p p' s s' rl h).choose_spec.2.2.1 tn d hd,
   fun p p' s s' rl tn d h hd =>
      (mpr_ok_spec p p' s s' rl h).choose_spec.2.2 tn d hd,
   fun p p' s s' rl tn d h hd =>
      (ftr_ok_spec p p' s s' rl h).choose_spec.2.2 tn d hd,
   by decide⟩

/-- C6 witness pre-state: a parser whose registry already defines test 7. -/
def c6w_def : TestDef :=
  { test_num := 7, test_name := [65], test_type := "P", rec_type := "PTR" }

/-- C6 witness pre-state parser. -/
def c6w_p : STDFParser :=
  { STDFParser.init with data := { tests := [(7, c6w_def)] } }

/-- C6 witness run: a second PTR record for test 7 decoded on top of that
pre-state. -/
def c6w_run : STDFParser × ByteStream :=
  okOr (_parse_ptr c6w_p ⟨[7, 0, 0, 0, 1, 1, 0, 0, 0, 0, 0, 64], 0⟩ 12)

/-- Claim C6 witness: after the second record for test 7 the registry still
holds the original definition. -/
theorem c6_witness : dictLookup c6w_run.1.data.tests 7 = some c6w_def :=
  c6_first_definition_wins.1 c6w_p c6w_run.1
    ⟨[7, 0, 0, 0, 1, 1, 0, 0, 0, 0, 0, 64], 0⟩ c6w_run.2 12 7 c6w_def rfl rfl

/-- A successful `_parse_wir` leaves the part counter untouched. -/
theorem wir_counter (p p' : STDFParser) (s s' : ByteStream) (rl : Nat)
    (h : _parse_wir p s rl = .ok (p', s')) :
    p'.part_counter = p.part_counter := by
  unfold _parse_wir at h
  obtain ⟨⟨hn, s1⟩, -, h⟩ := bind_ok h
  obtain ⟨⟨sg, s2⟩, -, h⟩ := bind_ok h
  obtain ⟨⟨st, s3⟩, -, h⟩ := bind_ok h
  obtain ⟨⟨wid, s4⟩, -, h⟩ := bind_ok h
  simp only [pure, Except.pure, Except.ok.injEq, Prod.mk.injEq] at h
  obtain ⟨hp, -⟩ := h
  subst hp
  rfl

/-- A successful `_parse_wrr` leaves the part counter untouched. -/
theorem wrr_counter (p p' : STDFParser) (s s' : ByteStream) (rl : Nat)
    (h : _parse_wrr p s rl = .ok (p', s')) :
    p'.part_counter = p.part_counter := by
  unfold _parse_wrr at h
  obtain ⟨⟨hn, s1⟩, -, h⟩ := bind_ok h
  obtain ⟨⟨sg, s2⟩, -, h⟩ := bind_ok h
  obtain ⟨⟨ft, s3⟩, -, h⟩ := bind_ok h
  obtain ⟨⟨pc, s4⟩, -, h⟩ := bind_ok h
  obtain ⟨⟨rc, s5⟩, -, h⟩ := bind_ok h
  obtain ⟨⟨ac, s6⟩, -, h⟩ := bind_ok h
  obtain ⟨⟨gc, s7⟩, -, h⟩ := bind_ok h
  obtain ⟨⟨fc, s8⟩, -, h⟩ := bind_ok h
  simp only [pure, Except.pure, Except.ok.injEq, Prod.mk.injEq] at h
  obtain ⟨hp, -⟩ := h
  subst hp
  rfl

/-- C7 input: two wafer-start records, each followed by three
part-start/part-result pairs. -/
def c7_two_wafers : List Nat :=
  [1, 0, 2, 10, 1] ++
  [2, 0, 5, 10, 1, 1] ++ [7, 0, 5, 20, 1, 1, 0, 0, 0, 1, 0] ++
  [2, 0, 5, 10, 1, 1] ++ [7, 0, 5, 20, 1, 1, 0, 0, 0, 1, 0] ++
  [2, 0, 5, 10, 1, 1] ++ [7, 0, 5, 20, 1, 1, 0, 0, 0, 1, 0] ++
  [1, 0, 2, 10, 1] ++
  [2, 0, 5, 10, 1, 1] ++ [7, 0, 5, 20, 1, 1, 0, 0, 0, 1, 0] ++
  [2, 0, 5, 10, 1, 1] ++ [7, 0, 5, 20, 1, 1, 0, 0, 0, 1, 0] ++
  [2, 0, 5, 10, 1, 1] ++ [7, 0, 5, 20, 1, 1, 0, 0, 0, 1, 0]

/-- Claim C7: the part sequence number is one monotonic counter for the
whole file.  Conjuncts: a part-start record increments the counter by
exactly one, for every payload and declared length; wafer-start and
wafer-result records leave the counter untouched; `parse` starts every run
with the counter reset to zero (the pre-existing counter value is
irrelevant); and across two wafers of three parts each the parts carry
sequence numbers 1..6, never resetting at the wafer boundary. -/
theorem c7_monotonic_part_counter :
    (∀ (p : STDFParser) (b0 b1 : Nat) (rest : List Nat) (rl : Nat),
        _parse_pir p ⟨b0 :: b1 :: rest, 0⟩ rl =
          .ok ({ p with
                  part_counter := p.part_counter + 1
                  data := { p.data with
                    current_part_index := p.part_counter + 1 } },
               ⟨b0 :: b1 :: rest, 2⟩)) ∧
    (∀ (p p' : STDFParser) (s s' : ByteStream) (rl : Nat),
        _parse_wir p s rl = .ok (p', s') →
        p'.part_counter = p.part_counter) ∧
    (∀ (p p' : STDFParser) (s s' : ByteStream) (rl : Nat),
        _parse_wrr p s rl = .ok (p', s') →
        p'.part_counter = p.part_counter) ∧
    (∀ (p : STDFParser) (n : Nat) (bytes : List Nat),
        STDFParser.parse { p with part_counter := n } bytes =
          STDFParser.parse p bytes) ∧
    (_parse_stdf_python c7_two_wafers).parts.map Part.seq =
      [1, 2, 3, 4, 5, 6] :=
  ⟨fun _ _ _ _ _ => rfl,
   fun p p' s s' rl h => wir_counter p p' s s' rl h,
   fun p p' s s' rl h => wrr_counter p p' s s' rl h,
   fun _ _ _ => rfl,
   by decide⟩

/-- C7 witness run: a minimal wafer-start record. -/
def c7w_wir : STDFParser × ByteStream :=
  okOr (_parse_wir STDFParser.init ⟨[1], 0⟩ 1)

/-- C7 witness run: a minimal wafer-result record. -/
def c7w_wrr : STDFParser × ByteStream :=
  okOr (_parse_wrr STDFParser.init ⟨[1], 0⟩ 1)

/-- Claim C7 witness: concrete wafer-start and wafer-result records leave
the counter of a fresh parser untouched. -/
theorem c7_witness :
    c7w_wir.1.part_counter = STDFParser.init.part_counter ∧
    c7w_wrr.1.part_counter = STDFParser.init.part_counter :=
  ⟨c7_monotonic_part_counter.2.1 STDFParser.init c7w_wir.1 ⟨[1], 0⟩
      c7w_wir.2 1 rfl,
   c7_monotonic_part_counter.2.2.1 STDFParser.init c7w_wrr.1 ⟨[1], 0⟩
      c7w_wrr.2 1 rfl⟩

/-- C8 payload: an MPR for test 9 with no per-pin states and three results
1.0f, 2.0f, 3.0f (bit patterns 0x3F800000, 0x40000000, 0x40400000),
declared length 24. -/
def mpr_three_payload : List Nat :=
  [9, 0, 0, 0, 1, 1, 0, 0, 0, 0, 3, 0,
   0, 0, 128, 63, 0, 0, 0, 64, 0, 0, 64, 64]

/-- C8 input: a file holding just that MPR record. -/
def c8_three_results : List Nat := [24, 0, 15, 15] ++ mpr_three_payload

/-- C8 input: a file holding an MPR record whose result count is zero. -/
def c8_empty_results : List Nat :=
  [12, 0, 15, 15, 9, 0, 0, 0, 1, 1, 0, 0, 0, 0, 0, 0]

/-- Claim C8: a multi-result test record appends exactly one test result
(first conjunct, any record); for every little-endian MPR payload with
three results the stored value is the first result's bit pattern and the
whole decode is characterized exactly (second conjunct); the file with
results [1.0, 2.0, 3.0] yields exactly one result carrying 1.0's bits, and
an empty result array yields null (last conjuncts). -/
theorem c8_mpr_collapse :
    (∀ (p p' : STDFParser) (s s' : ByteStream) (rl : Nat),
        _parse_mpr p s rl = .ok (p', s') →
        ∃ res : TestResult,
          p'.data.test_results = p.data.test_results ++ [res]) ∧
    (∀ (d : STDFData) (pc : Nat)
        (b0 b1 b2 b3 b4 b5 b6 b7 r0 r1 r2 r3 r4 r5 r6 r7 r8 r9 r10 r11 : Nat)
        (rest : List Nat),
        _parse_mpr ⟨d, pc, .le⟩
          ⟨[b0,b1,b2,b3,b4,b5,b6,b7,0,0,3,0,
            r0,r1,r2,r3,r4,r5,r6,r7,r8,r9,r10,r11] ++ rest, 0⟩ 24 =
          .ok (⟨{ d with
                  tests :=
                    if (dictLookup d.tests
                          (endVal .le [b0,b1,b2,b3])).isNone then
                      dictInsert d.tests (endVal .le [b0,b1,b2,b3])
                        { test_num := endVal .le [b0,b1,b2,b3]
                          test_name := []
                          lo_limit := none
                          hi_limit := none
                          units := []
                          test_type := "M"
                          rec_type := "MPR" }
                    else d.tests
                  test_results := d.test_results ++
                    [{ lot_id := d.lot_id
                       wafer_id := d.current_wafer
                       part_seq := pc
                       test_num := endVal .le [b0,b1,b2,b3]
                       head_num := b4
                       site_num := b5
                       result := some (endVal .le [r0,r1,r2,r3])
                       passed := (b6 &&& 128) == 0
                       alarm_id := [] }] }, pc, .le⟩,
               ⟨[b0,b1,b2,b3,b4,b5,b6,b7,0,0,3,0,
                 r0,r1,r2,r3,r4,r5,r6,r7,r8,r9,r10,r11] ++ rest, 24⟩)) ∧
    (_parse_stdf_python c8_three_results).test_results.map
      TestResult.result = [some 1065353216] ∧
    (_parse_stdf_python c8_empty_results).test_results.map
      TestResult.result = [none] := by
  refine ⟨?_, ?_, by decide, by decide⟩
  · intro p p' s s' rl h
    exact (mpr_ok_spec p p' s s' rl h).imp fun _ hr => hr.1
  · intro d pc b0 b1 b2 b3 b4 b5 b6 b7 r0 r1 r2 r3 r4 r5 r6 r7 r8 r9 r10
      r11 rest
    simp [_parse_mpr, mprRtnStatField, mprResults, mprRtnIndx, read_u1,
      read_u2, read_u4, read_r4, readOptU2, readOptCn, readOptU1, readOptI1,
      readOptR4, readOptR4D, fread, skipRemaining, bind, Except.bind, pure,
      Except.pure, endVal, leVal]

/-- C8 witness run: the three-result MPR payload decoded directly. -/
def c8w_run : STDFParser × ByteStream :=
  okOr (_parse_mpr STDFParser.init ⟨mpr_three_payload, 0⟩ 24)

/-- Claim C8 witness: that concrete MPR record appends exactly one test
result. -/
theorem c8_witness :
    ∃ res : TestResult,
      c8w_run.1.data.test_results =
        STDFParser.init.data.test_results ++ [res] :=
  c8_mpr_collapse.1 STDFParser.init c8w_run.1 ⟨mpr_three_payload, 0⟩
    c8w_run.2 24 rfl

/-- Claim C9: pass flags.  A part-results decode appends one part whose
pass flag is true iff bit 3 (0x08) of the part-flags byte — the third
payload byte — is clear; a parametric, multi-result, or functional test
decode appends one test result whose pass flag is true iff bit 7 (0x80) of
the test-flags byte — the seventh payload byte — is clear. -/
theorem c9_pass_flags :
    (∀ (p p' : STDFParser) (s s' : ByteStream) (rl : Nat),
        _parse_prr p s rl = .ok (p', s') →
        ∃ part : Part,
          p'.data.parts = p.data.parts ++ [part] ∧
          part.passed =
            (((s.bytes.drop (s.pos + 2)).headD 0) &&& 8 == 0)) ∧
    (∀ (p p' : STDFParser) (s s' : ByteStream) (rl : Nat),
        _parse_ptr p s rl = .ok (p', s') →
        ∃ res : TestResult,
          p'.data.test_results = p.data.test_results ++ [res] ∧
          res.passed =
            (((s.bytes.drop (s.pos + 6)).headD 0) &&& 128 == 0)) ∧
    (∀ (p p' : STDFParser) (s s' : ByteStream) (rl : Nat),
        _parse_mpr p s rl = .ok (p', s') →
        ∃ res : TestResult,
          p'.data.test_results = p.data.test_results ++ [res] ∧
          res.passed =
            (((s.bytes.drop (s.pos + 6)).headD 0) &&& 128 == 0)) ∧
    (∀ (p p' : STDFParser) (s s' : ByteStream) (rl : Nat),
        _parse_ftr p s rl = .ok (p', s') →
        ∃ res : TestResult,
          p'.data.test_results = p.data.test_results ++ [res] ∧
          res.passed =
            (((s.bytes.drop (s.pos + 6)).headD 0) &&& 128 == 0)) :=
  ⟨fun p p' s s' rl h => prr_ok_spec p p' s s' rl h,
   fun p p' s s' rl h =>
     (ptr_ok_spec p p' s s' rl h).imp fun _ hr => ⟨hr.1, hr.2.1⟩,
   fun p p' s s' rl h =>
     (mpr_ok_spec p p' s s' rl h).imp fun _ hr => ⟨hr.1, hr.2.1⟩,
   fun p p' s s' rl h =>
     (ftr_ok_spec p p' s s' rl h).imp fun _ hr => ⟨hr.1, hr.2.1⟩⟩

/-- C9 witness run: a failing part-results record (part flags 0x08). -/
def c9w_prr : STDFParser × ByteStream :=
  okOr (_parse_prr STDFParser.init ⟨[1, 1, 8, 0, 0, 1, 0], 0⟩ 7)

/-- C9 witness run: a failing parametric test record (test flags 0x80). -/
def c9w_ptr : STDFParser × ByteStream :=
  okOr (_parse_ptr STDFParser.init
    ⟨[7, 0, 0, 0, 1, 1, 128, 0, 0, 0, 0, 64], 0⟩ 12)

/-- C9 witness run: a failing multi-result test record (test flags 0x80). -/
def c9w_mpr : STDFParser × ByteStream :=
  okOr (_parse_mpr STDFParser.init
    ⟨[9, 0, 0, 0, 1, 1, 128, 0, 0, 0, 0, 0], 0⟩ 12)

/-- C9 witness run: a failing functional test record (test flags 0x80). -/
def c9w_ftr : STDFParser × ByteStream :=
  okOr (_parse_ftr STDFParser.init ⟨[5, 0, 0, 0, 1, 1, 128], 0⟩ 7)

/-- Claim C9 witness: the four flag rules at concrete failing records. -/
theorem c9_witness :
    (∃ part : Part,
        c9w_prr.1.data.parts = STDFParser.init.data.parts ++ [part] ∧
        part.passed =
          ((([1, 1, 8, 0, 0, 1, 0] : List Nat).drop 2).headD 0 &&& 8 == 0)) ∧
    (∃ res : TestResult,
        c9w_ptr.1.data.test_results =
          STDFParser.init.data.test_results ++ [res] ∧
        res.passed =
          ((([7, 0, 0, 0, 1, 1, 128, 0, 0, 0, 0, 64] : List Nat).drop
              6).headD 0 &&& 128 == 0)) ∧
    (∃ res : TestResult,
        c9w_mpr.1.data.test_results =
          STDFParser.init.data.test_results ++ [res] ∧
        res.passed =
          ((([9, 0, 0, 0, 1, 1, 128, 0, 0, 0, 0, 0] : List Nat).drop
              6).headD 0 &&& 128 == 0)) ∧
    (∃ res : TestResult,
        c9w_ftr.1.data.test_results =
          STDFParser.init.data.test_results ++ [res] ∧
        res.passed =
          ((([5, 0, 0, 0, 1, 1, 128] : List Nat).drop 6).headD 0 &&&
            128 == 0)) :=
  ⟨c9_pass_flags.1 STDFParser.init c9w_prr.1 ⟨[1, 1, 8, 0, 0, 1, 0], 0⟩
      c9w_prr.2 7 rfl,
   c9_pass_flags.2.1 STDFParser.init c9w_ptr.1
      ⟨[7, 0, 0, 0, 1, 1, 128, 0, 0, 0, 0, 64], 0⟩ c9w_ptr.2 12 rfl,
   c9_pass_flags.2.2.1 STDFParser.init c9w_mpr.1
      ⟨[9, 0, 0, 0, 1, 1, 128, 0, 0, 0, 0, 0], 0⟩ c9w_mpr.2 12 rfl,
   c9_pass_flags.2.2.2 STDFParser.init c9w_ftr.1
      ⟨[5, 0, 0, 0, 1, 1, 128], 0⟩ c9w_ftr.2 7 rfl⟩

/-- C10 input: a file whose FAR selects big endian (cpu 1) and nothing
else. -/
def c10_far_be : List Nat := [2, 0, 0, 10, 1, 2]

/-- C10 input: a single PTR record for test 5 encoded big-endian,
including its header length field. -/
def c10_be_ptr : List Nat :=
  [0, 12, 15, 10, 0, 0, 0, 5, 1, 1, 0, 0, 63, 128, 0, 0]

/-- Claim C10: `parse` reinitializes the session data and the part counter
but leaves the resolved endianness alone.  First conjunct: two parser
instances agreeing on endianness produce identical parses whatever session
data or counter they carry.  Second conjunct: after parsing a big-endian
FAR file, a second parse on the same instance reads the new file's header
and multi-byte fields big-endian and decodes the test-5 record, while a
fresh (little-endian) parser on the same bytes misreads the header length
and produces nothing. -/
theorem c10_parse_resets_data_not_endian :
    (∀ (p q : STDFParser) (bytes : List Nat), p.endian = q.endian →
        STDFParser.parse p bytes = STDFParser.parse q bytes) ∧
    ((STDFParser.init.parse c10_far_be).1.endian = .be ∧
     ((STDFParser.init.parse c10_far_be).1.parse
        c10_be_ptr).2.test_results.map TestResult.test_num = [5] ∧
     (_parse_stdf_python c10_be_ptr).test_results = []) := by
  constructor
  · rintro ⟨pd, pc, pe⟩ ⟨qd, qc, qe⟩ bytes h
    have h' : pe = qe := h
    subst h'
    rfl
  · exact ⟨by decide, by decide, by decide⟩

/-- Claim C10 witness: a parser carrying stale session data and a nonzero
counter parses exactly like a fresh one of the same endianness. -/
theorem c10_witness :
    STDFParser.parse ⟨{ lot_id := [65] }, 5, .le⟩ c10_be_ptr =
      STDFParser.parse STDFParser.init c10_be_ptr :=
  c10_parse_resets_data_not_endian.1 ⟨{ lot_id := [65] }, 5, .le⟩
    STDFParser.init c10_be_ptr rfl

end STDF
